import Mathlib

/-!
Shallow embedding of the task-tracking backend in `src/backend/src/main.rs`:
the data model, the category seeding step, and the request handlers
(list categories, list tasks, create, partial update, delete), with the
SQLite store modelled as in-memory lists and each statement's effect made
explicit.  Handlers return the new store state together with either a
result or the `ErrorResponse` the code would produce.
-/

namespace Crud

/-- Row of the `categorias` relation (Rust struct `Categoria`). -/
structure Categoria where
  id : Int
  nombre : String
deriving DecidableEq, Repr

/-- Stored row of the `tareas` relation: flat shape with the
`categoria_id` foreign key, as persisted by the store. -/
structure TareaRow where
  id : Int
  titulo : String
  descripcion : String
  categoria_id : Int
  completada : Bool
deriving DecidableEq, Repr

/-- API-facing task shape (Rust struct `Tarea`): category embedded by value. -/
structure Tarea where
  id : Int
  titulo : String
  descripcion : String
  categoria : Categoria
  completada : Bool
deriving DecidableEq, Repr

/-- The relational store: the two persisted relations. -/
structure DB where
  categorias : List Categoria
  tareas : List TareaRow
deriving DecidableEq, Repr

/-- Error payload (Rust struct `ErrorResponse`). -/
structure ErrorResponse where
  error : String
deriving DecidableEq, Repr

/-- Create-task request body (Rust struct `NuevaTarea`). -/
structure NuevaTarea where
  titulo : String
  descripcion : String
  categoria_id : Int
deriving DecidableEq, Repr

/-- Partial-update request body (Rust struct `ActualizarTarea`):
every field optional. -/
structure ActualizarTarea where
  titulo : Option String
  descripcion : Option String
  categoria_id : Option Int
  completada : Option Bool
deriving DecidableEq, Repr

/-- Message `format!("La tarea con ID {} no existe", id)` — the NotFoundError
message of the taxonomy. -/
def msgTareaNoExiste (id : Int) : String :=
  "La tarea con ID " ++ toString id ++ " no existe"

/-- Message `format!("La categoría con ID {} no existe", id)` — the
ReferenceError message of the taxonomy. -/
def msgCategoriaNoExiste (cid : Int) : String :=
  "La categoría con ID " ++ toString cid ++ " no existe"

/-- ValidationError message for a blank title. -/
def msgTituloVacio : String := "El título no puede estar vacío"

/-- ValidationError message for a blank description. -/
def msgDescripcionVacia : String := "La descripción no puede estar vacía"

/-- PersistenceError message produced when the built UPDATE statement is
rejected by the engine (the `map_err` on `execute` in `actualizar_tarea`). -/
def msgErrorActualizar : String :=
  "Error al actualizar tarea: near \"WHERE\": syntax error"

/-- PersistenceError message of `obtener_tarea_completa` when `fetch_one`
finds no joined row. -/
def msgErrorObtener : String :=
  "Error al obtener tarea: no rows returned by a query that expected to return at least one row"

/-- Embedding of the Rust check `s.trim().is_empty()`: the trimmed string
is empty exactly when every character is whitespace (Lean's
`Char.isWhitespace` models Rust's `char::is_whitespace` on the inputs in
scope). -/
def trimEsVacio (s : String) : Bool :=
  s.data.all Char.isWhitespace

/-- Existence check `SELECT 1 FROM categorias WHERE id = ?`. -/
def categoriaExiste (db : DB) (cid : Int) : Bool :=
  db.categorias.any (fun c => c.id == cid)

/-- Existence check `SELECT 1 FROM tareas WHERE id = ?`. -/
def tareaExiste (db : DB) (tid : Int) : Bool :=
  db.tareas.any (fun t => t.id == tid)

/-- Largest task id present (0 for an empty relation); the store assigns
`maxTareaId + 1` to a fresh row, modelling SQLite rowid assignment. -/
def maxTareaId (l : List TareaRow) : Int :=
  l.foldr (fun t m => max t.id m) 0

/-- Largest category id present, for seeding. -/
def maxCategoriaId (l : List Categoria) : Int :=
  l.foldr (fun c m => max c.id m) 0

/-- The fixed seed list of `init_categorias`. -/
def categoriasIniciales : List String :=
  ["Compras", "Trabajo", "Estudio", "Personal", "Otros"]

/-- One `INSERT OR IGNORE INTO categorias (nombre) VALUES (?)`: a no-op
when the name is already present (names are unique), otherwise appends a
fresh row. -/
def insertOrIgnoreCategoria (db : DB) (nombre : String) : DB :=
  if db.categorias.any (fun c => c.nombre == nombre) then db
  else { db with categorias :=
          db.categorias ++ [{ id := maxCategoriaId db.categorias + 1, nombre := nombre }] }

/-- Seeding step `init_categorias`: insert-if-absent for each default name. -/
def init_categorias (db : DB) : DB :=
  categoriasIniciales.foldl insertOrIgnoreCategoria db

/-- The joined row set of
`SELECT ... FROM tareas t INNER JOIN categorias c ON t.categoria_id = c.id`,
already mapped through `Tarea::from` (the entity mapper): tasks whose
category is missing are excluded by the inner join. -/
def joinTareas (db : DB) : List Tarea :=
  db.tareas.filterMap (fun t =>
    (db.categorias.find? (fun c => c.id == t.categoria_id)).map (fun c =>
      { id := t.id, titulo := t.titulo, descripcion := t.descripcion,
        categoria := c, completada := t.completada }))

/-- The comparison realised by `ORDER BY t.completada, t.id DESC`:
incomplete (false sorts before true) first, then descending id. -/
def tareaLe (a b : Tarea) : Bool :=
  if a.completada == b.completada then decide (b.id ≤ a.id)
  else !a.completada

/-- The `ORDER BY` comparison as a decidable relation. -/
def tareaRel (a b : Tarea) : Prop := tareaLe a b = true

instance : DecidableRel tareaRel := fun a b => instDecidableEqBool (tareaLe a b) true

/-- The comparison is total: `completada, id DESC` ranks any two tasks. -/
lemma tareaLe_total (a b : Tarea) : tareaLe a b = true ∨ tareaLe b a = true := by
  simp only [tareaLe]
  cases ha : a.completada <;> cases hb : b.completada <;> simp <;> omega

/-- The comparison is transitive. -/
lemma tareaLe_trans (a b c : Tarea) (h1 : tareaLe a b = true) (h2 : tareaLe b c = true) :
    tareaLe a c = true := by
  simp only [tareaLe] at h1 h2 ⊢
  cases ha : a.completada <;> cases hb : b.completada <;> cases hc : c.completada <;>
    simp_all <;> omega

instance : IsTotal Tarea tareaRel := ⟨tareaLe_total⟩

instance : IsTrans Tarea tareaRel := ⟨tareaLe_trans⟩

/-- Handler `listar_tareas`: joined rows ordered by
`ORDER BY t.completada, t.id DESC` (a stable sort by that key). -/
def listar_tareas (db : DB) : Except ErrorResponse (List Tarea) :=
  .ok (List.insertionSort tareaRel (joinTareas db))

/-- Helper `obtener_tarea_completa`: fetch one joined row by task id. -/
def obtener_tarea_completa (db : DB) (id : Int) : Except ErrorResponse Tarea :=
  match db.tareas.find? (fun t => t.id == id) with
  | none => .error { error := msgErrorObtener }
  | some t =>
    match db.categorias.find? (fun c => c.id == t.categoria_id) with
    | none => .error { error := msgErrorObtener }
    | some c => .ok { id := t.id, titulo := t.titulo, descripcion := t.descripcion,
                      categoria := c, completada := t.completada }

/-- Handler `crear_tarea`: validate title, then description, then category
existence, then `INSERT ... RETURNING id` and re-fetch the joined row.
Returns the store state after the call alongside the handler result. -/
def crear_tarea (db : DB) (nt : NuevaTarea) : DB × Except ErrorResponse Tarea :=
  if trimEsVacio nt.titulo then
    (db, .error { error := msgTituloVacio })
  else if trimEsVacio nt.descripcion then
    (db, .error { error := msgDescripcionVacia })
  else if !(categoriaExiste db nt.categoria_id) then
    (db, .error { error := msgCategoriaNoExiste nt.categoria_id })
  else
    let id := maxTareaId db.tareas + 1
    let row : TareaRow := { id := id, titulo := nt.titulo, descripcion := nt.descripcion,
                            categoria_id := nt.categoria_id, completada := false }
    let db2 : DB := { db with tareas := db.tareas ++ [row] }
    (db2, obtener_tarea_completa db2 id)

/-- SET clauses of the dynamic update, one `column = ?` item per supplied
field, in the order the code pushes them. -/
def clauseList (a : ActualizarTarea) : List String :=
  (if a.titulo.isSome then ["titulo = ?"] else []) ++
  (if a.descripcion.isSome then ["descripcion = ?"] else []) ++
  (if a.categoria_id.isSome then ["categoria_id = ?"] else []) ++
  (if a.completada.isSome then ["completada = ?"] else [])

/-- SQL text assembled by the `QueryBuilder` in `actualizar_tarea`,
mirroring the `first` flag: a `", "` separator is pushed before every
clause except the first, and `push_bind` places a `?` placeholder. -/
def buildUpdateSql (a : ActualizarTarea) : String :=
  let q0 := "UPDATE tareas SET "
  let s1 := match a.titulo with
    | some _ => (q0 ++ "titulo = ?", false)
    | none => (q0, true)
  let s2 := match a.descripcion with
    | some _ => ((if !s1.2 then s1.1 ++ ", " else s1.1) ++ "descripcion = ?", false)
    | none => s1
  let s3 := match a.categoria_id with
    | some _ => ((if !s2.2 then s2.1 ++ ", " else s2.1) ++ "categoria_id = ?", false)
    | none => s2
  let q4 := match a.completada with
    | some _ => (if !s3.2 then s3.1 ++ ", " else s3.1) ++ "completada = ?"
    | none => s3.1
  q4 ++ " WHERE id = ?"

/-- True when the request supplies at least one field, i.e. the built
statement has a non-empty SET clause list. -/
def hasAnyField (a : ActualizarTarea) : Bool :=
  a.titulo.isSome || a.descripcion.isSome || a.categoria_id.isSome || a.completada.isSome

/-- Effect of the built UPDATE on one stored row: each supplied field is
assigned its bound value, omitted columns keep their prior value. -/
def applyActualizacion (a : ActualizarTarea) (t : TareaRow) : TareaRow :=
  { t with
    titulo := a.titulo.getD t.titulo,
    descripcion := a.descripcion.getD t.descripcion,
    categoria_id := a.categoria_id.getD t.categoria_id,
    completada := a.completada.getD t.completada }

/-- Tail of `actualizar_tarea` after the task and category existence
checks: the dynamic query build (validating each supplied text field as it
is pushed), then execution.  The engine rejects the statement when no
field was supplied (`UPDATE tareas SET  WHERE id = ?` is a syntax error);
otherwise the assignments are applied to the rows matching the id, and the
joined row is re-fetched. -/
def actualizarTareaBuild (db : DB) (id : Int) (a : ActualizarTarea) :
    DB × Except ErrorResponse Tarea :=
  if (match a.titulo with | some s => trimEsVacio s | none => false) then
    (db, .error { error := msgTituloVacio })
  else if (match a.descripcion with | some s => trimEsVacio s | none => false) then
    (db, .error { error := msgDescripcionVacia })
  else if !(hasAnyField a) then
    (db, .error { error := msgErrorActualizar })
  else
    let nuevasTareas :=
      db.tareas.map (fun t => if t.id == id then applyActualizacion a t else t)
    let db2 : DB := { db with tareas := nuevasTareas }
    (db2, obtener_tarea_completa db2 id)

/-- Handler `actualizar_tarea`: check the task exists, then (only if a new
category id is supplied) that the category exists, then build and run the
dynamic update. -/
def actualizar_tarea (db : DB) (id : Int) (a : ActualizarTarea) :
    DB × Except ErrorResponse Tarea :=
  if !(tareaExiste db id) then
    (db, .error { error := msgTareaNoExiste id })
  else
    match a.categoria_id with
    | some cid =>
      if !(categoriaExiste db cid) then
        (db, .error { error := msgCategoriaNoExiste cid })
      else actualizarTareaBuild db id a
    | none => actualizarTareaBuild db id a

/-- Handler `borrar_tarea`: `DELETE FROM tareas WHERE id = ?`, then the
affected-rows check; success is 204 No Content, zero affected rows is the
NotFoundError response. -/
def borrar_tarea (db : DB) (id : Int) : DB × Except ErrorResponse Unit :=
  let remaining := db.tareas.filter (fun t => t.id != id)
  let db2 : DB := { db with tareas := remaining }
  if remaining.length < db.tareas.length then
    (db2, .ok ())
  else
    (db2, .error { error := msgTareaNoExiste id })

/-- Rendered HTTP response: status code and body text. -/
structure HttpResponse where
  status : Nat
  body : String
deriving DecidableEq, Repr

/-- Serde rendering of `ErrorResponse`: the uniform error envelope. -/
def jsonErrorEnvelope (msg : String) : String :=
  "\x7b\"error\":\"" ++ msg ++ "\"\x7d"

/-- The `IntoResponse` impl for `ErrorResponse`: every error is rendered
with `StatusCode::BAD_REQUEST` (400) and the JSON envelope body. -/
def ErrorResponse.intoResponse (e : ErrorResponse) : HttpResponse :=
  { status := 400, body := jsonErrorEnvelope e.error }

/-- Concrete store used to instantiate the theorems: two seeded categories
and three tasks with ids 1, 2, 3 of which only task 2 is completed. -/
def exDB : DB :=
  { categorias := [{ id := 1, nombre := "Compras" }, { id := 2, nombre := "Trabajo" }],
    tareas := [{ id := 1, titulo := "a", descripcion := "b", categoria_id := 1, completada := false },
               { id := 2, titulo := "c", descripcion := "d", categoria_id := 1, completada := true },
               { id := 3, titulo := "e", descripcion := "f", categoria_id := 2, completada := false }] }

/-- Update payload that supplies no field at all. -/
def updVacia : ActualizarTarea :=
  { titulo := none, descripcion := none, categoria_id := none, completada := none }

/-- Store already holding exactly the five default category names. -/
def exDBSembrada : DB :=
  { categorias := [{ id := 1, nombre := "Compras" }, { id := 2, nombre := "Trabajo" },
                   { id := 3, nombre := "Estudio" }, { id := 4, nombre := "Personal" },
                   { id := 5, nombre := "Otros" }],
    tareas := [] }

/-- Update payload supplying only `completada := true`. -/
def updSoloCompletada : ActualizarTarea :=
  { titulo := none, descripcion := none, categoria_id := none, completada := some true }

/-- Every stored task id is bounded by `maxTareaId`. -/
lemma mem_le_maxTareaId {r : TareaRow} {l : List TareaRow} (h : r ∈ l) :
    r.id ≤ maxTareaId l := by
  induction l with
  | nil => cases h
  | cons x xs ih =>
    rcases List.mem_cons.mp h with h | h
    · subst h
      simp only [maxTareaId, List.foldr_cons]
      exact le_max_left _ _
    · have hx := ih h
      simp only [maxTareaId, List.foldr_cons] at *
      exact le_trans hx (le_max_right _ _)

/-- Order of the pre-mutation checks of `actualizar_tarea`: task
existence, then supplied-category existence, then supplied-title
validation, then supplied-description validation; shared by the ordering
and atomicity results. -/
lemma actualizar_tarea_orden_aux (db : DB) (id : Int) (a : ActualizarTarea) :
    (tareaExiste db id = false →
      actualizar_tarea db id a = (db, .error { error := msgTareaNoExiste id })) ∧
    (∀ cid, tareaExiste db id = true → a.categoria_id = some cid →
      categoriaExiste db cid = false →
      actualizar_tarea db id a = (db, .error { error := msgCategoriaNoExiste cid })) ∧
    (∀ s, tareaExiste db id = true →
      (∀ cid, a.categoria_id = some cid → categoriaExiste db cid = true) →
      a.titulo = some s → trimEsVacio s = true →
      actualizar_tarea db id a = (db, .error { error := msgTituloVacio })) ∧
    (∀ s, tareaExiste db id = true →
      (∀ cid, a.categoria_id = some cid → categoriaExiste db cid = true) →
      (∀ s2, a.titulo = some s2 → trimEsVacio s2 = false) →
      a.descripcion = some s → trimEsVacio s = true →
      actualizar_tarea db id a = (db, .error { error := msgDescripcionVacia })) := by
  refine ⟨fun hex => ?_, fun cid hex hcid hcat => ?_, fun s hex hcat htit hs => ?_,
    fun s hex hcat htit hdes hs => ?_⟩
  · simp [actualizar_tarea, hex]
  · simp [actualizar_tarea, hex, hcid, hcat]
  · cases hc : a.categoria_id with
    | none => simp [actualizar_tarea, actualizarTareaBuild, hex, hc, htit, hs]
    | some cid =>
      have := hcat cid hc
      simp [actualizar_tarea, actualizarTareaBuild, hex, hc, htit, hs, this]
  · have hnotit : (match a.titulo with | some s2 => trimEsVacio s2 | none => false) = false := by
      cases ht : a.titulo with
      | none => rfl
      | some s2 => exact htit s2 ht
    cases hc : a.categoria_id with
    | none => simp [actualizar_tarea, actualizarTareaBuild, hex, hc, hnotit, hdes, hs]
    | some cid =>
      have := hcat cid hc
      simp [actualizar_tarea, actualizarTareaBuild, hex, hc, hnotit, hdes, hs, this]

/-- C2: on update, the checks run in the fixed order task existence, then
existence of a supplied category id, then validation of the supplied title,
then of the supplied description; a request with several problems reports
the first failing check in that order, and the store is left unchanged. -/
theorem actualizar_tarea_orden_de_errores (db : DB) (id : Int) (a : ActualizarTarea) :
    (tareaExiste db id = false →
      actualizar_tarea db id a = (db, .error { error := msgTareaNoExiste id })) ∧
    (∀ cid, tareaExiste db id = true → a.categoria_id = some cid →
      categoriaExiste db cid = false →
      actualizar_tarea db id a = (db, .error { error := msgCategoriaNoExiste cid })) ∧
    (∀ s, tareaExiste db id = true →
      (∀ cid, a.categoria_id = some cid → categoriaExiste db cid = true) →
      a.titulo = some s → trimEsVacio s = true →
      actualizar_tarea db id a = (db, .error { error := msgTituloVacio })) ∧
    (∀ s, tareaExiste db id = true →
      (∀ cid, a.categoria_id = some cid → categoriaExiste db cid = true) →
      (∀ s2, a.titulo = some s2 → trimEsVacio s2 = false) →
      a.descripcion = some s → trimEsVacio s = true →
      actualizar_tarea db id a = (db, .error { error := msgDescripcionVacia })) :=
  actualizar_tarea_orden_aux db id a

/-- C2 witness: concrete instances of all four failure orders over `exDB`,
including the two instances named by the claim: unknown task id with a
blank title reports the task NotFound message, and unknown category id
with a blank title reports the category Reference message. -/
theorem actualizar_tarea_orden_de_errores_witness :
    (actualizar_tarea exDB 99
        { titulo := some " ", descripcion := none, categoria_id := some 999, completada := none } =
      (exDB, .error { error := msgTareaNoExiste 99 })) ∧
    (actualizar_tarea exDB 1
        { titulo := some " ", descripcion := none, categoria_id := some 999, completada := none } =
      (exDB, .error { error := msgCategoriaNoExiste 999 })) ∧
    (actualizar_tarea exDB 1
        { titulo := some " ", descripcion := some " ", categoria_id := some 2, completada := none } =
      (exDB, .error { error := msgTituloVacio })) ∧
    (actualizar_tarea exDB 1
        { titulo := some "x", descripcion := some " ", categoria_id := some 2, completada := none } =
      (exDB, .error { error := msgDescripcionVacia })) := by
  refine ⟨(actualizar_tarea_orden_de_errores exDB 99 _).1 (by decide),
    (actualizar_tarea_orden_de_errores exDB 1 _).2.1 999 (by decide) rfl (by decide),
    (actualizar_tarea_orden_de_errores exDB 1 _).2.2.1 " " (by decide) ?_ rfl (by decide),
    (actualizar_tarea_orden_de_errores exDB 1 _).2.2.2 " " (by decide) ?_ ?_ rfl (by decide)⟩
  · intro cid h
    cases h
    decide
  · intro cid h
    cases h
    decide
  · intro s2 h
    cases h
    decide

/-- C10: whenever an update request is rejected by one of the pre-mutation
checks — unknown task id, unknown supplied category id, or a blank
supplied title or description — the handler returns an error and the
stored state is exactly the input state: the UPDATE was never executed. -/
theorem actualizar_tarea_atomico (db : DB) (id : Int) (a : ActualizarTarea)
    (h : tareaExiste db id = false ∨
      (∃ cid, a.categoria_id = some cid ∧ categoriaExiste db cid = false) ∨
      (∃ s, a.titulo = some s ∧ trimEsVacio s = true) ∨
      (∃ s, a.descripcion = some s ∧ trimEsVacio s = true)) :
    (actualizar_tarea db id a).1 = db ∧
    ∃ e, (actualizar_tarea db id a).2 = .error e := by
  by_cases hex : tareaExiste db id
  · rcases h with h | ⟨cid, hcid, hcat⟩ | ⟨s, hs, hblank⟩ | ⟨s, hs, hblank⟩
    · simp [hex] at h
    · simp [actualizar_tarea, hex, hcid, hcat]
    · by_cases hcat : (∀ cid, a.categoria_id = some cid → categoriaExiste db cid = true)
      · have := (actualizar_tarea_orden_aux db id a).2.2.1 s hex hcat hs hblank
        simp [this]
      · push_neg at hcat
        rcases hcat with ⟨cid, hcid, hcatf⟩
        have hcatf2 : categoriaExiste db cid = false := by
          simpa using hcatf
        simp [actualizar_tarea, hex, hcid, hcatf2]
    · by_cases hcat : (∀ cid, a.categoria_id = some cid → categoriaExiste db cid = true)
      · by_cases htit : (∀ s2, a.titulo = some s2 → trimEsVacio s2 = false)
        · have := (actualizar_tarea_orden_aux db id a).2.2.2 s hex hcat htit hs hblank
          simp [this]
        · push_neg at htit
          rcases htit with ⟨s2, hs2, htitf⟩
          have htitf2 : trimEsVacio s2 = true := by
            simpa using htitf
          have := (actualizar_tarea_orden_aux db id a).2.2.1 s2 hex hcat hs2 htitf2
          simp [this]
      · push_neg at hcat
        rcases hcat with ⟨cid, hcid, hcatf⟩
        have hcatf2 : categoriaExiste db cid = false := by
          simpa using hcatf
        simp [actualizar_tarea, hex, hcid, hcatf2]
  · have hex2 : tareaExiste db id = false := by
      simpa using hex
    simp [actualizar_tarea, hex2]

/-- C10 witness: a blank-title update of the existing task 1 of `exDB`
leaves the store untouched and yields an error. -/
theorem actualizar_tarea_atomico_witness :
    (actualizar_tarea exDB 1
        { titulo := some " ", descripcion := none, categoria_id := none, completada := some true }).1
      = exDB ∧
    ∃ e, (actualizar_tarea exDB 1
        { titulo := some " ", descripcion := none, categoria_id := none, completada := some true }).2
      = .error e :=
  actualizar_tarea_atomico exDB 1 _ (Or.inr (Or.inr (Or.inl ⟨" ", rfl, by decide⟩)))

/-- C1 counterexample: task 1 exists in `exDB`, yet the update request that
supplies no field at all is answered with an error (the executed statement
`UPDATE tareas SET  WHERE id = ?` is rejected by the engine), not with the
unchanged task the claim promises. -/
theorem actualizar_tarea_payload_vacio_counterexample :
    tareaExiste exDB 1 = true ∧
    actualizar_tarea exDB 1 updVacia = (exDB, .error { error := msgErrorActualizar }) := by
  exact ⟨by decide, by rfl⟩

/-- C1 (amended): for every existing task id, a partial-update request
supplying no fields at all does not succeed: the builder emits
`UPDATE tareas SET  WHERE id = ?` with an empty SET clause list, the engine
rejects it as a syntax error, the handler reports that persistence error,
and the stored tasks are left byte-for-byte unchanged. -/
theorem actualizar_tarea_payload_vacio (db : DB) (id : Int) (a : ActualizarTarea)
    (hex : tareaExiste db id = true) (hvac : hasAnyField a = false) :
    actualizar_tarea db id a = (db, .error { error := msgErrorActualizar }) ∧
    buildUpdateSql a = "UPDATE tareas SET  WHERE id = ?" ∧
    clauseList a = [] := by
  rcases a with ⟨t, d, c, co⟩
  cases t <;> cases d <;> cases c <;> cases co <;>
    simp_all [hasAnyField, actualizar_tarea, actualizarTareaBuild,
      buildUpdateSql, clauseList, hex]

/-- C1 witness for the amended statement, at `exDB` and task id 1. -/
theorem actualizar_tarea_payload_vacio_witness :
    actualizar_tarea exDB 1 updVacia = (exDB, .error { error := msgErrorActualizar }) ∧
    buildUpdateSql updVacia = "UPDATE tareas SET  WHERE id = ?" ∧
    clauseList updVacia = [] :=
  actualizar_tarea_payload_vacio exDB 1 updVacia (by decide) rfl

/-- C6: creation fails with the blank-title ValidationError message when
the title is whitespace-only, with the blank-description message when the
title is fine but the description is whitespace-only, with some
ValidationError whenever either text field is blank, and with the
ReferenceError message when both texts are fine but the category id is
unknown; in every such failure the store is returned unchanged. -/
theorem crear_tarea_errores (db : DB) (nt : NuevaTarea) :
    (trimEsVacio nt.titulo = true →
      crear_tarea db nt = (db, .error { error := msgTituloVacio })) ∧
    (trimEsVacio nt.titulo = false → trimEsVacio nt.descripcion = true →
      crear_tarea db nt = (db, .error { error := msgDescripcionVacia })) ∧
    ((trimEsVacio nt.titulo = true ∨ trimEsVacio nt.descripcion = true) →
      crear_tarea db nt = (db, .error { error := msgTituloVacio }) ∨
      crear_tarea db nt = (db, .error { error := msgDescripcionVacia })) ∧
    (trimEsVacio nt.titulo = false → trimEsVacio nt.descripcion = false →
      categoriaExiste db nt.categoria_id = false →
      crear_tarea db nt = (db, .error { error := msgCategoriaNoExiste nt.categoria_id })) := by
  refine ⟨fun ht => ?_, fun ht hd => ?_, fun h => ?_, fun ht hd hc => ?_⟩
  · simp [crear_tarea, ht]
  · simp [crear_tarea, ht, hd]
  · by_cases ht : trimEsVacio nt.titulo = true
    · exact Or.inl (by simp [crear_tarea, ht])
    · have ht2 : trimEsVacio nt.titulo = false := by simpa using ht
      rcases h with h | h
      · exact absurd h ht
      · exact Or.inr (by simp [crear_tarea, ht2, h])
  · simp [crear_tarea, ht, hd, hc]

/-- C6 witness: over `exDB`, a whitespace-only title `"  "` is rejected
with the title ValidationError, a whitespace-only description with the
description ValidationError, and the unknown category id 9999 with the
ReferenceError, each leaving the store unchanged. -/
theorem crear_tarea_errores_witness :
    (crear_tarea exDB { titulo := "  ", descripcion := "d", categoria_id := 1 } =
      (exDB, .error { error := msgTituloVacio })) ∧
    (crear_tarea exDB { titulo := "t", descripcion := "  ", categoria_id := 1 } =
      (exDB, .error { error := msgDescripcionVacia })) ∧
    (crear_tarea exDB { titulo := "t", descripcion := "d", categoria_id := 9999 } =
      (exDB, .error { error := msgCategoriaNoExiste 9999 })) :=
  ⟨(crear_tarea_errores exDB _).1 (by decide),
   (crear_tarea_errores exDB _).2.1 (by decide) (by decide),
   (crear_tarea_errores exDB _).2.2.2 (by decide) (by decide) (by decide)⟩

/-- No-matching-row delete: when the id is absent the DELETE affects zero
rows and the handler answers with the NotFoundError message, returning the
store unchanged. -/
lemma borrar_tarea_not_found {db : DB} {id : Int} (h : tareaExiste db id = false) :
    borrar_tarea db id = (db, .error { error := msgTareaNoExiste id }) := by
  have hall : ∀ t ∈ db.tareas, (t.id != id) = true := by
    have h2 : ∀ x ∈ db.tareas, ¬ x.id = id := by
      simpa [tareaExiste] using h
    intro t ht
    simpa using h2 t ht
  have hfil : db.tareas.filter (fun t => t.id != id) = db.tareas :=
    List.filter_eq_self.mpr hall
  simp [borrar_tarea, hfil]

/-- C7: deletion succeeds with no content exactly when the task id exists,
and then removes exactly the rows with that id; an unknown id yields the
NotFoundError message with the store unchanged, so deleting the same id
twice yields success and then NotFoundError with no further effect. -/
theorem borrar_tarea_spec (db : DB) (id : Int) :
    ((borrar_tarea db id).2 = .ok () ↔ tareaExiste db id = true) ∧
    (borrar_tarea db id).1.tareas = db.tareas.filter (fun t => t.id != id) ∧
    (tareaExiste db id = false →
      borrar_tarea db id = (db, .error { error := msgTareaNoExiste id })) ∧
    (tareaExiste db id = true →
      (borrar_tarea db id).2 = .ok () ∧
      borrar_tarea (borrar_tarea db id).1 id =
        ((borrar_tarea db id).1, .error { error := msgTareaNoExiste id })) := by
  have hlen : ((db.tareas.filter (fun t => t.id != id)).length < db.tareas.length)
      ↔ tareaExiste db id = true := by
    rw [List.length_filter_lt_length_iff_exists]
    simp [tareaExiste, List.any_eq_true]
  have hfst : (borrar_tarea db id).1.tareas = db.tareas.filter (fun t => t.id != id) := by
    simp only [borrar_tarea]
    split <;> rfl
  have hgone : tareaExiste (borrar_tarea db id).1 id = false := by
    rw [tareaExiste, hfst]
    simp only [List.any_eq_false]
    intro t ht
    have := (List.mem_filter.mp ht).2
    simpa using this
  refine ⟨?_, hfst, fun h => borrar_tarea_not_found h, fun h => ⟨?_, ?_⟩⟩
  · constructor
    · intro h
      by_contra hex
      have hex2 : tareaExiste db id = false := by simpa using hex
      rw [borrar_tarea_not_found hex2] at h
      exact Except.noConfusion h
    · intro h
      have := hlen.mpr h
      simp [borrar_tarea, this]
  · have := hlen.mpr h
    simp [borrar_tarea, this]
  · exact borrar_tarea_not_found hgone

/-- C7 witness: over `exDB`, deleting task 2 succeeds and deleting it a
second time reports the NotFoundError message; deleting the absent id 99
leaves the store unchanged. -/
theorem borrar_tarea_spec_witness :
    (borrar_tarea exDB 2).2 = .ok () ∧
    borrar_tarea (borrar_tarea exDB 2).1 2 =
      ((borrar_tarea exDB 2).1, .error { error := msgTareaNoExiste 2 }) ∧
    borrar_tarea exDB 99 = (exDB, .error { error := msgTareaNoExiste 99 }) :=
  ⟨((borrar_tarea_spec exDB 2).2.2.2 (by decide)).1,
   ((borrar_tarea_spec exDB 2).2.2.2 (by decide)).2,
   (borrar_tarea_spec exDB 99).2.2.1 (by decide)⟩

/-- C8: every error value any handler can return is rendered by the single
`IntoResponse` impl: the body is the uniform envelope with the
human-readable message and the status is the one generic 400 code,
whatever the failure kind (validation, reference, not-found or
persistence). -/
theorem respuesta_de_error_uniforme :
    (∀ e : ErrorResponse, (ErrorResponse.intoResponse e).status = 400 ∧
      (ErrorResponse.intoResponse e).body = jsonErrorEnvelope e.error) ∧
    (∀ db nt db2 e, crear_tarea db nt = (db2, .error e) →
      ErrorResponse.intoResponse e = { status := 400, body := jsonErrorEnvelope e.error }) ∧
    (∀ db id a db2 e, actualizar_tarea db id a = (db2, .error e) →
      ErrorResponse.intoResponse e = { status := 400, body := jsonErrorEnvelope e.error }) ∧
    (∀ db id db2 e, borrar_tarea db id = (db2, .error e) →
      ErrorResponse.intoResponse e = { status := 400, body := jsonErrorEnvelope e.error }) :=
  ⟨fun _ => ⟨rfl, rfl⟩, fun _ _ _ _ _ => rfl, fun _ _ _ _ _ _ => rfl, fun _ _ _ _ _ => rfl⟩

/-- C8 witness: the ValidationError of a blank-title create and the
NotFoundError of deleting the absent id 99 are both rendered with status
400 and the uniform envelope body. -/
theorem respuesta_de_error_uniforme_witness :
    ErrorResponse.intoResponse { error := msgTituloVacio } =
      { status := 400, body := jsonErrorEnvelope msgTituloVacio } ∧
    ErrorResponse.intoResponse { error := msgTareaNoExiste 99 } =
      { status := 400, body := jsonErrorEnvelope (msgTareaNoExiste 99) } :=
  ⟨respuesta_de_error_uniforme.2.1 exDB
      { titulo := "  ", descripcion := "d", categoria_id := 1 } exDB
      { error := msgTituloVacio } (by rfl),
   respuesta_de_error_uniforme.2.2.2 exDB 99 exDB
      { error := msgTareaNoExiste 99 } (by rfl)⟩

/-- Presence of a category name survives any further insert-if-absent. -/
lemma nombrePresente_insertOrIgnore (db : DB) (n m : String)
    (h : db.categorias.any (fun c => c.nombre == n) = true) :
    (insertOrIgnoreCategoria db m).categorias.any (fun c => c.nombre == n) = true := by
  unfold insertOrIgnoreCategoria
  split
  · exact h
  · simp only [List.any_append, h, Bool.true_or]

/-- Insert-if-absent establishes presence of the inserted name. -/
lemma insertOrIgnore_nombre_presente (db : DB) (n : String) :
    (insertOrIgnoreCategoria db n).categorias.any (fun c => c.nombre == n) = true := by
  unfold insertOrIgnoreCategoria
  split
  case isTrue h => exact h
  case isFalse h => simp

/-- Presence of a name is preserved by a whole seeding fold. -/
lemma foldl_insert_mono (l : List String) (db : DB) (n : String)
    (h : db.categorias.any (fun c => c.nombre == n) = true) :
    (l.foldl insertOrIgnoreCategoria db).categorias.any (fun c => c.nombre == n) = true := by
  induction l generalizing db with
  | nil => exact h
  | cons x xs ih => exact ih _ (nombrePresente_insertOrIgnore db n x h)

/-- After the seeding fold, every seeded name is present. -/
lemma foldl_insert_presente (l : List String) (db : DB) (n : String) (h : n ∈ l) :
    (l.foldl insertOrIgnoreCategoria db).categorias.any (fun c => c.nombre == n) = true := by
  induction l generalizing db with
  | nil => cases h
  | cons x xs ih =>
    rcases List.mem_cons.mp h with h | h
    · subst h
      exact foldl_insert_mono xs _ _ (insertOrIgnore_nombre_presente db _)
    · exact ih _ h

/-- A seeding fold over names that are all already present is a no-op. -/
lemma foldl_insert_noop (l : List String) (db : DB)
    (h : ∀ n ∈ l, db.categorias.any (fun c => c.nombre == n) = true) :
    l.foldl insertOrIgnoreCategoria db = db := by
  induction l with
  | nil => rfl
  | cons x xs ih =>
    have hx : insertOrIgnoreCategoria db x = db := by
      unfold insertOrIgnoreCategoria
      simp [h x (List.mem_cons_self x xs)]
    rw [List.foldl_cons, hx, ih (fun n hn => h n (List.mem_cons_of_mem x hn))]

/-- C9: the bootstrap seeding is idempotent — running `init_categorias`
on its own output changes nothing, and on a store that already contains
the five default names (keyed by name) it is the identity. -/
theorem init_categorias_idempotente (db : DB) :
    init_categorias (init_categorias db) = init_categorias db ∧
    ((∀ n ∈ categoriasIniciales, db.categorias.any (fun c => c.nombre == n) = true) →
      init_categorias db = db) := by
  constructor
  · exact foldl_insert_noop _ _ (fun n hn => foldl_insert_presente _ db n hn)
  · intro h
    exact foldl_insert_noop _ _ h

/-- C9 witness: re-running the seeding over `exDB` changes nothing, and
seeding a store that already holds the five names is the identity. -/
theorem init_categorias_idempotente_witness :
    init_categorias (init_categorias exDB) = init_categorias exDB ∧
    init_categorias exDBSembrada = exDBSembrada :=
  ⟨(init_categorias_idempotente exDB).1,
   (init_categorias_idempotente exDBSembrada).2 (by decide)⟩

/-- With at least one supplied field, the text the QueryBuilder assembles
is exactly the clause list joined by `", "` between clauses only. -/
lemma buildUpdateSql_clauses (a : ActualizarTarea) (hany : hasAnyField a = true) :
    clauseList a ≠ [] ∧
    buildUpdateSql a =
      "UPDATE tareas SET " ++ String.intercalate ", " (clauseList a) ++ " WHERE id = ?" := by
  rcases a with ⟨t, d, c, co⟩
  cases t <;> cases d <;> cases c <;> cases co <;>
    simp_all [hasAnyField, clauseList, buildUpdateSql, String.intercalate] <;> decide

/-- A successful run of the pre-mutation checks leads to the UPDATE being
applied to exactly the rows with the target id. -/
lemma actualizar_tarea_mutacion (db : DB) (id : Int) (a : ActualizarTarea)
    (hex : tareaExiste db id = true)
    (hcat : ∀ cid, a.categoria_id = some cid → categoriaExiste db cid = true)
    (htit : ∀ s, a.titulo = some s → trimEsVacio s = false)
    (hdes : ∀ s, a.descripcion = some s → trimEsVacio s = false)
    (hany : hasAnyField a = true) :
    (actualizar_tarea db id a).1 =
      { db with tareas :=
          db.tareas.map (fun t => if t.id == id then applyActualizacion a t else t) } := by
  have hnotit : (match a.titulo with | some s => trimEsVacio s | none => false) = false := by
    cases h : a.titulo with
    | none => rfl
    | some s => exact htit s h
  have hnodes : (match a.descripcion with | some s => trimEsVacio s | none => false) = false := by
    cases h : a.descripcion with
    | none => rfl
    | some s => exact hdes s h
  have hbuild : (actualizarTareaBuild db id a).1 =
      { db with tareas :=
          db.tareas.map (fun t => if t.id == id then applyActualizacion a t else t) } := by
    simp [actualizarTareaBuild, hnotit, hnodes, hany]
  cases hc : a.categoria_id with
  | none => simpa [actualizar_tarea, hex, hc] using hbuild
  | some cid =>
    have hcid := hcat cid hc
    simpa [actualizar_tarea, hex, hc, hcid] using hbuild

/-- C3: for an existing task and a valid partial update, only the supplied
columns of the targeted row change: rows with a different id are untouched
and every omitted column keeps its prior value (in particular a
`{completada := true}`-only payload changes nothing but the flag); and the
built statement is the clause list joined by the separator between clauses
only, non-empty. -/
theorem actualizar_tarea_frame (db : DB) (id : Int) (a : ActualizarTarea)
    (hex : tareaExiste db id = true)
    (hcat : ∀ cid, a.categoria_id = some cid → categoriaExiste db cid = true)
    (htit : ∀ s, a.titulo = some s → trimEsVacio s = false)
    (hdes : ∀ s, a.descripcion = some s → trimEsVacio s = false)
    (hany : hasAnyField a = true) :
    (clauseList a ≠ [] ∧
      buildUpdateSql a =
        "UPDATE tareas SET " ++ String.intercalate ", " (clauseList a) ++ " WHERE id = ?") ∧
    ∃ db2 r, actualizar_tarea db id a = (db2, r) ∧
      db2.tareas.length = db.tareas.length ∧
      ∀ i (hi : i < db.tareas.length) (hi2 : i < db2.tareas.length),
        (db.tareas[i].id ≠ id → db2.tareas[i] = db.tareas[i]) ∧
        (db.tareas[i].id = id →
          (a.titulo = none → db2.tareas[i].titulo = db.tareas[i].titulo) ∧
          (a.descripcion = none → db2.tareas[i].descripcion = db.tareas[i].descripcion) ∧
          (a.categoria_id = none → db2.tareas[i].categoria_id = db.tareas[i].categoria_id) ∧
          (a.completada = none → db2.tareas[i].completada = db.tareas[i].completada) ∧
          (a = { titulo := none, descripcion := none, categoria_id := none,
                 completada := some true } →
            db2.tareas[i] = { db.tareas[i] with completada := true })) := by
  have hmut := actualizar_tarea_mutacion db id a hex hcat htit hdes hany
  refine ⟨buildUpdateSql_clauses a hany,
    { db with tareas := db.tareas.map (fun t => if t.id == id then applyActualizacion a t else t) },
    (actualizar_tarea db id a).2, ?_, by simp, ?_⟩
  · rw [← hmut]
  · intro i hi hi2
    simp only [List.getElem_map]
    constructor
    · intro hne
      simp [beq_eq_false_iff_ne.mpr hne]
    · intro heq
      simp only [heq, beq_self_eq_true, if_true]
      refine ⟨fun h => ?_, fun h => ?_, fun h => ?_, fun h => ?_, fun h => ?_⟩ <;>
        simp [applyActualizacion, h, heq]

/-- Ranked-before in the list means: incomplete before completed, or same
completion group and descending id. -/
lemma tareaLe_spec (a b : Tarea) (h : tareaLe a b = true) :
    (a.completada = false ∧ b.completada = true) ∨
    (a.completada = b.completada ∧ b.id ≤ a.id) := by
  simp only [tareaLe] at h
  cases ha : a.completada <;> cases hb : b.completada <;> simp_all

/-- C4: listing returns exactly the tasks whose category exists (the inner
join), ordered with incomplete tasks first and completed after, within
each group by descending id; on the three-task store with only task 2
completed the returned ids are `[3, 1, 2]`. -/
theorem listar_tareas_ordenado :
    (∀ db : DB, ∃ l, listar_tareas db = .ok l ∧ l.Perm (joinTareas db) ∧
      l.Pairwise (fun a b => (a.completada = false ∧ b.completada = true) ∨
        (a.completada = b.completada ∧ b.id ≤ a.id))) ∧
    (∃ l, listar_tareas exDB = .ok l ∧ l.map (fun t => t.id) = [3, 1, 2] ∧
      ∀ t ∈ l, (t.completada = true ↔ t.id = 2)) := by
  constructor
  · intro db
    refine ⟨List.insertionSort tareaRel (joinTareas db), rfl,
      List.perm_insertionSort tareaRel (joinTareas db), ?_⟩
    have hs := List.sorted_insertionSort tareaRel (joinTareas db)
    exact List.Pairwise.imp (fun h => tareaLe_spec _ _ h) hs
  · exact ⟨List.insertionSort tareaRel (joinTareas exDB), rfl, by decide, by decide⟩

/-- C3 witness: the `{completada := true}`-only update of existing task 1
over `exDB` builds `UPDATE tareas SET completada = ? WHERE id = ?` and
changes no other column of any row. -/
theorem actualizar_tarea_frame_witness :
    (clauseList updSoloCompletada ≠ [] ∧
      buildUpdateSql updSoloCompletada =
        "UPDATE tareas SET " ++ String.intercalate ", " (clauseList updSoloCompletada) ++
          " WHERE id = ?") ∧
    ∃ db2 r, actualizar_tarea exDB 1 updSoloCompletada = (db2, r) ∧
      db2.tareas.length = exDB.tareas.length ∧
      ∀ i (hi : i < exDB.tareas.length) (hi2 : i < db2.tareas.length),
        (exDB.tareas[i].id ≠ 1 → db2.tareas[i] = exDB.tareas[i]) ∧
        (exDB.tareas[i].id = 1 →
          (updSoloCompletada.titulo = none →
            db2.tareas[i].titulo = exDB.tareas[i].titulo) ∧
          (updSoloCompletada.descripcion = none →
            db2.tareas[i].descripcion = exDB.tareas[i].descripcion) ∧
          (updSoloCompletada.categoria_id = none →
            db2.tareas[i].categoria_id = exDB.tareas[i].categoria_id) ∧
          (updSoloCompletada.completada = none →
            db2.tareas[i].completada = exDB.tareas[i].completada) ∧
          (updSoloCompletada = { titulo := none, descripcion := none, categoria_id := none,
                                 completada := some true } →
            db2.tareas[i] = { exDB.tareas[i] with completada := true })) :=
  actualizar_tarea_frame exDB 1 updSoloCompletada (by decide)
    (fun cid h => by cases h) (fun s h => by cases h) (fun s h => by cases h) rfl

/-- C4 witness: the general part of the listing theorem instantiated at the
concrete store `exDB`. -/
theorem listar_tareas_ordenado_witness :
    ∃ l, listar_tareas exDB = .ok l ∧ l.Perm (joinTareas exDB) ∧
      l.Pairwise (fun a b => (a.completada = false ∧ b.completada = true) ∨
        (a.completada = b.completada ∧ b.id ≤ a.id)) :=
  listar_tareas_ordenado.1 exDB

/-- A row id absent from a task list is not found by the id probe. -/
lemma find?_tareas_fresh (l : List TareaRow) (i : Int) (h : ∀ r ∈ l, r.id ≠ i) :
    l.find? (fun t => t.id == i) = none := by
  rw [List.find?_eq_none]
  intro x hx
  simpa using h x hx

/-- A category id that passes the existence check is found by `find?`,
with the matching id. -/
lemma find?_categoria_of_existe {db : DB} {cid : Int} (h : categoriaExiste db cid = true) :
    ∃ c, db.categorias.find? (fun c => c.id == cid) = some c ∧ c.id = cid := by
  have hex : ∃ x ∈ db.categorias, (fun c => c.id == cid) x = true := by
    simpa [categoriaExiste, List.any_eq_true] using h
  have hsome : (db.categorias.find? (fun c => c.id == cid)).isSome :=
    List.find?_isSome.mpr hex
  obtain ⟨c, hc⟩ := Option.isSome_iff_exists.mp hsome
  refine ⟨c, hc, ?_⟩
  simpa using List.find?_some hc

/-- C5: creating a task from valid inputs (non-blank texts, existing
category) succeeds, returns the task with a store-assigned fresh id, the
given fields, `completada = false` and the requested embedded category id;
the row is appended to the store, and a subsequent listing shows exactly
the old listing plus that one new task. -/
theorem crear_tarea_y_listar (db : DB) (nt : NuevaTarea)
    (ht : trimEsVacio nt.titulo = false)
    (hd : trimEsVacio nt.descripcion = false)
    (hc : categoriaExiste db nt.categoria_id = true) :
    ∃ db2 t, crear_tarea db nt = (db2, .ok t) ∧
      t.titulo = nt.titulo ∧ t.descripcion = nt.descripcion ∧
      t.completada = false ∧ t.categoria.id = nt.categoria_id ∧
      (∀ r ∈ db.tareas, r.id ≠ t.id) ∧
      db2.tareas = db.tareas ++
        [{ id := t.id, titulo := nt.titulo, descripcion := nt.descripcion,
           categoria_id := nt.categoria_id, completada := false }] ∧
      ∃ l1 l2, listar_tareas db = .ok l1 ∧ listar_tareas db2 = .ok l2 ∧
        l2.Perm (t :: l1) := by
  obtain ⟨c, hfind, hcid⟩ := find?_categoria_of_existe hc
  have hfresh : ∀ r ∈ db.tareas, r.id ≠ maxTareaId db.tareas + 1 := by
    intro r hr
    have := mem_le_maxTareaId hr
    omega
  have hfindrow : List.find? (fun t => t.id == maxTareaId db.tareas + 1) (db.tareas ++ [({ id := maxTareaId db.tareas + 1, titulo := nt.titulo, descripcion := nt.descripcion, categoria_id := nt.categoria_id, completada := false } : TareaRow)]) = some ({ id := maxTareaId db.tareas + 1, titulo := nt.titulo, descripcion := nt.descripcion, categoria_id := nt.categoria_id, completada := false } : TareaRow) := by
    rw [List.find?_append, find?_tareas_fresh db.tareas _ hfresh]
    simp
  have hobt : obtener_tarea_completa { db with tareas := db.tareas ++ [({ id := maxTareaId db.tareas + 1, titulo := nt.titulo, descripcion := nt.descripcion, categoria_id := nt.categoria_id, completada := false } : TareaRow)] } (maxTareaId db.tareas + 1) = .ok ({ id := maxTareaId db.tareas + 1, titulo := nt.titulo, descripcion := nt.descripcion, categoria := c, completada := false } : Tarea) := by
    simp only [obtener_tarea_completa, hfindrow, hfind]
  have hjoin2 : joinTareas { db with tareas := db.tareas ++ [({ id := maxTareaId db.tareas + 1, titulo := nt.titulo, descripcion := nt.descripcion, categoria_id := nt.categoria_id, completada := false } : TareaRow)] } = joinTareas db ++ [({ id := maxTareaId db.tareas + 1, titulo := nt.titulo, descripcion := nt.descripcion, categoria := c, completada := false } : Tarea)] := by
    simp only [joinTareas, List.filterMap_append]
    simp [hfind]
  refine ⟨{ db with tareas := db.tareas ++ [({ id := maxTareaId db.tareas + 1, titulo := nt.titulo, descripcion := nt.descripcion, categoria_id := nt.categoria_id, completada := false } : TareaRow)] }, ({ id := maxTareaId db.tareas + 1, titulo := nt.titulo, descripcion := nt.descripcion, categoria := c, completada := false } : Tarea), ?_, rfl, rfl, rfl, hcid, hfresh, rfl, ?_⟩
  · simp only [crear_tarea, ht, hd, hc, Bool.not_true, Bool.false_eq_true, if_false]
    rw [hobt]
  · refine ⟨_, _, rfl, rfl, ?_⟩
    refine (List.perm_insertionSort _ _).trans ?_
    rw [hjoin2]
    exact (List.perm_append_singleton _ _).trans
      (((List.perm_insertionSort tareaRel (joinTareas db)).symm).cons _)

/-- C5 witness: creating `{titulo := "nueva", descripcion := "desc",
categoria_id := 2}` over `exDB`. -/
theorem crear_tarea_y_listar_witness :
    ∃ db2 t, crear_tarea exDB { titulo := "nueva", descripcion := "desc", categoria_id := 2 } =
        (db2, .ok t) ∧
      t.titulo = "nueva" ∧ t.descripcion = "desc" ∧
      t.completada = false ∧ t.categoria.id = 2 ∧
      (∀ r ∈ exDB.tareas, r.id ≠ t.id) ∧
      db2.tareas = exDB.tareas ++
        [{ id := t.id, titulo := "nueva", descripcion := "desc",
           categoria_id := 2, completada := false }] ∧
      ∃ l1 l2, listar_tareas exDB = .ok l1 ∧ listar_tareas db2 = .ok l2 ∧
        l2.Perm (t :: l1) :=
  crear_tarea_y_listar exDB
    { titulo := "nueva", descripcion := "desc", categoria_id := 2 }
    (by decide) (by decide) (by decide)

end Crud
